import Mathlib

/-!
# Verification of the HleduApi response-normalization core

A shallow embedding, in Lean 4, of the parsing / coercion / provider-selection
core of the HleduApi repository, together with theorems settling the frozen
claims C1-C10 about it.

Conventions of the embedding:
* Python floats are modelled as `PFloat`: an exact rational together with the
  three non-finite values `nan`, `inf`, `ninf`.  Comparisons mirror IEEE
  ordering on these values (every comparison with `nan` is false); the finite
  arithmetic is idealized as exact rational arithmetic.
* Python runtime values passed around by the parsers are modelled as `PyVal`
  (None, bool, int, float, str, list, dict).  Dictionaries are association
  lists with Python's replace-on-rebind semantics.
* Raising an exception is modelled with `Except PyErr`; a function that
  absorbs all exceptions is total.
-/

/-- The classes of Python exception that the embedded code can raise. -/
inductive PyErr where
  | valueError
  | typeError
  | attributeError
  | unboundLocalError
  | validationError
  | httpException
  deriving DecidableEq, Repr

/-- Model of a CPython `float`: a finite rational or one of `nan`, `inf`, `ninf`. -/
inductive PFloat where
  | fin (q : ℚ)
  | nan
  | inf
  | ninf
  deriving DecidableEq, Repr

namespace PFloat

/-- Strict `<` on Python floats: any comparison involving `nan` is false. -/
def lt : PFloat → PFloat → Bool
  | fin a, fin b => a < b
  | nan, _ => false
  | _, nan => false
  | ninf, ninf => false
  | ninf, _ => true
  | _, ninf => false
  | inf, _ => false
  | fin _, inf => true

/-- Python `min(a, b)`: returns `b` only when `b < a` (first argument wins ties
and all `nan` comparisons). -/
def pyMin (a b : PFloat) : PFloat := if lt b a then b else a

/-- Python `max(a, b)`: returns `b` only when `a < b`. -/
def pyMax (a b : PFloat) : PFloat := if lt a b then b else a

end PFloat

/-- ASCII whitespace as recognized by Python's `str.strip` and `float`. -/
def isPyWs (c : Char) : Bool :=
  c = ' ' || c = '\t' || c = '\n' || c = '\r' || c = '\x0b' || c = '\x0c'

/-!
The `Rat` arithmetic of the standard library is `@[irreducible]`, which blocks
kernel evaluation through `decide`/`rfl`.  The embedding therefore performs
its (exact) rational arithmetic through `mkRat` on raw numerators and
denominators; the results are ordinary, normalized `ℚ` values.
-/

/-- Kernel-computable rational addition. -/
def qAdd (a b : ℚ) : ℚ := mkRat (a.num * b.den + b.num * a.den) (a.den * b.den)

/-- Kernel-computable rational multiplication. -/
def qMul (a b : ℚ) : ℚ := mkRat (a.num * b.num) (a.den * b.den)

/-- Kernel-computable division of a rational by a natural number. -/
def qDivNat (a : ℚ) (n : ℕ) : ℚ := mkRat a.num (a.den * n)

/-- Kernel-computable rational negation. -/
def qNeg (a : ℚ) : ℚ := mkRat (-a.num) a.den

/-- Digit list to natural number, most significant first. -/
def digitsToNat (ds : List Char) : ℕ :=
  ds.foldl (fun a c => a * 10 + (c.toNat - '0'.toNat)) 0

/-- `span` of leading digits. -/
def spanDigits (cs : List Char) : List Char × List Char :=
  (cs.takeWhile Char.isDigit, cs.dropWhile Char.isDigit)

/-- Fractional value of a digit list: `.d₁d₂… = digits / 10^len`. -/
def fracOfDigits (ds : List Char) : ℚ :=
  qDivNat (digitsToNat ds : ℚ) (10 ^ ds.length)

/-- Helper for `floatOfString`: parse the mantissa `digits [. digits] | . digits`
returning its value, or `none` if no digit is present where required. -/
def parseMantissa (cs : List Char) : Option (ℚ × List Char) :=
  let (ip, r1) := spanDigits cs
  match r1 with
  | '.' :: r2 =>
    let (fp, r3) := spanDigits r2
    if ip.isEmpty && fp.isEmpty then none
    else some (qAdd (digitsToNat ip : ℚ) (fracOfDigits fp), r3)
  | _ => if ip.isEmpty then none else some ((digitsToNat ip : ℚ), r1)

/-- Helper for `floatOfString`: optional exponent part `[eE][+-]?digits`. -/
def parseExponent (cs : List Char) : Option (ℤ × List Char) :=
  match cs with
  | 'e' :: r | 'E' :: r =>
    let (sgn, r1) : ℤ × List Char :=
      match r with
      | '+' :: t => (1, t)
      | '-' :: t => (-1, t)
      | t => (1, t)
    let (ds, r2) := spanDigits r1
    if ds.isEmpty then none else some (sgn * (digitsToNat ds : ℤ), r2)
  | _ => some (0, cs)

/-- Scale a rational by `10^e` for an integer exponent `e`. -/
def applyExp (m : ℚ) (e : ℤ) : ℚ :=
  if e < 0 then qDivNat m (10 ^ e.natAbs) else qMul m ((10 ^ e.natAbs : ℕ) : ℚ)

/-- Model of CPython's `float(str)` conversion: optional surrounding
whitespace, optional sign, then either `nan`, `inf`/`infinity`
(case-insensitive) or a decimal literal with optional exponent.  Returns
`none` where CPython raises `ValueError`.  (PEP-515 digit underscores are not
modelled.) -/
def floatOfString (s : String) : Option PFloat :=
  let cs := ((s.data.dropWhile isPyWs).reverse.dropWhile isPyWs).reverse
  let (neg, cs) : Bool × List Char :=
    match cs with
    | '+' :: t => (false, t)
    | '-' :: t => (true, t)
    | t => (false, t)
  let low := cs.map Char.toLower
  if low = ['n', 'a', 'n'] then some PFloat.nan
  else if low = ['i', 'n', 'f'] || low = ['i', 'n', 'f', 'i', 'n', 'i', 't', 'y'] then
    some (if neg then PFloat.ninf else PFloat.inf)
  else
    match parseMantissa cs with
    | none => none
    | some (m, r1) =>
      match parseExponent r1 with
      | none => none
      | some (e, r2) =>
        if r2.isEmpty then
          some (PFloat.fin (applyExp (if neg then qNeg m else m) e))
        else none

/-- Python runtime values handled by the normalization core. -/
inductive PyVal where
  | none
  | bool (b : Bool)
  | int (n : ℤ)
  | float (f : PFloat)
  | str (s : String)
  | list (xs : List PyVal)
  | dict (entries : List (String × PyVal))

/-- Association lists standing for Python dicts. -/
abbrev PyDict := List (String × PyVal)

/-- Dict lookup (`d[k]` / `d.get(k)`). -/
def dget (d : PyDict) (k : String) : Option PyVal :=
  match d with
  | [] => Option.none
  | (k₁, v) :: t => if k₁ = k then some v else dget t k

/-- Dict update `d[k] = v`: replaces the existing binding in place, else
appends, matching Python dict insertion semantics. -/
def dset (d : PyDict) (k : String) (v : PyVal) : PyDict :=
  match d with
  | [] => [(k, v)]
  | (k₁, v₁) :: t => if k₁ = k then (k₁, v) :: t else (k₁, v₁) :: dset t k v

/-- Python truthiness of a value (`bool(v)`). -/
def pyTruthy : PyVal → Bool
  | .none => false
  | .bool b => b
  | .int n => n ≠ 0
  | .float (.fin q) => q ≠ 0
  | .float _ => true
  | .str s => s ≠ ""
  | .list xs => !xs.isEmpty
  | .dict d => !d.isEmpty

/-- The builtin `float(value)` applied to a runtime value; raises `ValueError`
on an unparsable string and `TypeError` on non-numeric types (`bool` is an
`int` subtype in Python and converts). -/
def pyFloat : PyVal → Except PyErr PFloat
  | .str s => match floatOfString s with
    | some f => .ok f
    | Option.none => .error .valueError
  | .int n => .ok (.fin n)
  | .bool b => .ok (.fin (if b then 1 else 0))
  | .float f => .ok f
  | _ => .error .typeError

/-- `str.strip()` on ASCII whitespace. -/
def pyStrip (s : String) : String :=
  String.mk (((s.data.dropWhile isPyWs).reverse.dropWhile isPyWs).reverse)

/-- Characters strictly before the first occurrence of `c`. -/
def beforeChar (c : Char) (cs : List Char) : List Char :=
  cs.takeWhile (· ≠ c)

namespace GeminiProvider

/-- `GeminiProvider._parse_score`, value computation before clamping: strings
are stripped, cut at the first `/`, and converted with `float`; ints and
floats convert directly; anything else (or a conversion error) gives `0.0`. -/
def parse_score_raw (value : PyVal) : PFloat :=
  match value with
  | .str s =>
    let text := pyStrip s
    let text := if text.data.contains '/' then String.mk (beforeChar '/' text.data) else text
    match floatOfString text with
    | some f => f
    | Option.none => .fin 0
  | .int n => .fin n
  | .bool b => .fin (if b then 1 else 0)
  | .float f => f
  | _ => .fin 0

/-- `GeminiProvider._parse_score`: raw conversion followed by the two-sided
`if parsed < 0.0 … if parsed > 10.0` clamp. -/
def parse_score (value : PyVal) : PFloat :=
  let parsed := parse_score_raw value
  if PFloat.lt parsed (.fin 0) then .fin 0
  else if PFloat.lt (.fin 10) parsed then .fin 10
  else parsed

end GeminiProvider

namespace OpenAIProvider

/-- `OpenAIProvider._parse_score`: same raw conversion as the Gemini variant,
clamped with `max(0.0, min(10.0, parsed))` instead. -/
def parse_score (value : PyVal) : PFloat :=
  let parsed := GeminiProvider.parse_score_raw value
  PFloat.pyMax (.fin 0) (PFloat.pyMin (.fin 10) parsed)

end OpenAIProvider

/-- A Python float lying in the closed interval `[0, 10]`. -/
def inRange010 (f : PFloat) : Prop := ∃ q : ℚ, f = .fin q ∧ 0 ≤ q ∧ q ≤ 10

/-! ## JSON parsing (`json.loads`)

A fuel-based recursive-descent parser for the strict JSON grammar accepted by
Python's `json.loads` (including its `NaN`/`Infinity`/`-Infinity` extension,
enabled by default).  `jsonLoads` returns `none` exactly where Python raises
`json.JSONDecodeError`.  Unicode surrogate pairing in `\uXXXX` escapes is not
modelled (each escape becomes one scalar). -/

/-- JSON structural whitespace. -/
def isJsonWs (c : Char) : Bool :=
  c = ' ' || c = '\t' || c = '\n' || c = '\r'

/-- Drop leading JSON whitespace. -/
def skipWs (cs : List Char) : List Char := cs.dropWhile isJsonWs

/-- Does `pat` occur at the head of `cs`? -/
def listStarts : List Char → List Char → Bool
  | [], _ => true
  | _ :: _, [] => false
  | p :: ps, c :: cs => p = c && listStarts ps cs

/-- Hexadecimal digit value (codes 48-57, 97-102, 65-70). -/
def hexVal (c : Char) : Option ℕ :=
  let n := c.toNat
  if 48 ≤ n ∧ n ≤ 57 then some (n - 48)
  else if 97 ≤ n ∧ n ≤ 102 then some (n - 87)
  else if 65 ≤ n ∧ n ≤ 70 then some (n - 55)
  else Option.none

/-- JSON string body after the opening quote; strict mode rejects raw control
characters.  Returns the decoded string and the input after the closing
quote. -/
def parseJStringAux : ℕ → List Char → List Char → Option (String × List Char)
  | 0, _, _ => Option.none
  | _ + 1, _, [] => Option.none
  | f + 1, acc, c :: rest =>
    if c = '"' then some (String.mk acc.reverse, rest)
    else if c = '\\' then
      match rest with
      | [] => Option.none
      | e :: r2 =>
        if e = '"' then parseJStringAux f ('"' :: acc) r2
        else if e = '\\' then parseJStringAux f ('\\' :: acc) r2
        else if e = '/' then parseJStringAux f ('/' :: acc) r2
        else if e = 'b' then parseJStringAux f ('\x08' :: acc) r2
        else if e = 'f' then parseJStringAux f ('\x0c' :: acc) r2
        else if e = 'n' then parseJStringAux f ('\n' :: acc) r2
        else if e = 'r' then parseJStringAux f ('\r' :: acc) r2
        else if e = 't' then parseJStringAux f ('\t' :: acc) r2
        else if e = 'u' then
          match r2 with
          | h1 :: h2 :: h3 :: h4 :: r3 =>
            match hexVal h1, hexVal h2, hexVal h3, hexVal h4 with
            | some a, some b, some c₁, some d =>
              let n := ((a * 16 + b) * 16 + c₁) * 16 + d
              if h : n.isValidChar then parseJStringAux f (Char.ofNatAux n h :: acc) r3
              else parseJStringAux f ('�' :: acc) r3
            | _, _, _, _ => Option.none
          | _ => Option.none
        else Option.none
    else if c.toNat < 32 then Option.none
    else parseJStringAux f (c :: acc) rest

/-- JSON number at the head of the input, following the strict grammar
`-?(0|[1-9][0-9]*)(\.[0-9]+)?([eE][+-]?[0-9]+)?`; an integer literal becomes a
Python `int`, any fraction or exponent makes it a `float`. -/
def parseJNumber (cs : List Char) : Option (PyVal × List Char) :=
  let (neg, r0) : Bool × List Char :=
    match cs with
    | '-' :: t => (true, t)
    | t => (false, t)
  let (ip, r1) := spanDigits r0
  match ip with
  | [] => Option.none
  | '0' :: _ :: _ => Option.none
  | _ =>
    let fracPart : Option (List Char) × List Char :=
      match r1 with
      | '.' :: r2 =>
        let (fp, r3) := spanDigits r2
        if fp.isEmpty then (Option.none, '.' :: r2) else (some fp, r3)
      | _ => (Option.none, r1)
    match fracPart with
    | (fp, r3) =>
      let expPart : Option (Option ℤ × List Char) :=
        match r3 with
        | 'e' :: r4 | 'E' :: r4 =>
          let (sgn, r5) : ℤ × List Char :=
            match r4 with
            | '+' :: t => (1, t)
            | '-' :: t => (-1, t)
            | t => (1, t)
          let (ds, r6) := spanDigits r5
          if ds.isEmpty then Option.none else some (some (sgn * (digitsToNat ds : ℤ)), r6)
        | _ => some (Option.none, r3)
      match fp, expPart with
      | _, Option.none =>
        -- an 'e' not followed by digits makes the whole literal invalid
        Option.none
      | Option.none, some (Option.none, r) =>
        some (.int (if neg then -(digitsToNat ip : ℤ) else (digitsToNat ip : ℤ)), r)
      | _, some (e, r) =>
        let m := qAdd (digitsToNat ip : ℚ) (fracOfDigits (fp.getD []))
        let m := if neg then qNeg m else m
        some (.float (.fin (applyExp m (e.getD 0))), r)

mutual

/-- One JSON value at the head of the input (after leading whitespace). -/
def parseJValue : ℕ → List Char → Option (PyVal × List Char)
  | 0, _ => Option.none
  | f + 1, cs =>
    let cs := skipWs cs
    if listStarts ['n', 'u', 'l', 'l'] cs then some (.none, cs.drop 4)
    else if listStarts ['t', 'r', 'u', 'e'] cs then some (.bool true, cs.drop 4)
    else if listStarts ['f', 'a', 'l', 's', 'e'] cs then some (.bool false, cs.drop 5)
    else if listStarts ['N', 'a', 'N'] cs then some (.float .nan, cs.drop 3)
    else if listStarts ['I', 'n', 'f', 'i', 'n', 'i', 't', 'y'] cs then
      some (.float .inf, cs.drop 8)
    else if listStarts ['-', 'I', 'n', 'f', 'i', 'n', 'i', 't', 'y'] cs then
      some (.float .ninf, cs.drop 9)
    else
      match cs with
      | '"' :: rest => parseJStringAux (rest.length + 1) [] rest |>.map (fun (s, r) => (.str s, r))
      | '\x7b' :: rest =>
        let rest := skipWs rest
        match rest with
        | '\x7d' :: r => some (.dict [], r)
        | _ => parseJObjLoop f [] rest
      | '[' :: rest =>
        let rest := skipWs rest
        match rest with
        | ']' :: r => some (.list [], r)
        | _ => parseJArrLoop f [] rest
      | _ => parseJNumber cs

/-- Members of a JSON object, starting at a key; duplicate keys follow
Python's last-wins dict semantics. -/
def parseJObjLoop : ℕ → PyDict → List Char → Option (PyVal × List Char)
  | 0, _, _ => Option.none
  | f + 1, acc, cs =>
    match cs with
    | '"' :: rest =>
      match parseJStringAux (rest.length + 1) [] rest with
      | Option.none => Option.none
      | some (k, r1) =>
        match skipWs r1 with
        | ':' :: r2 =>
          match parseJValue f r2 with
          | Option.none => Option.none
          | some (v, r3) =>
            let acc := dset acc k v
            match skipWs r3 with
            | ',' :: r4 => parseJObjLoop f acc (skipWs r4)
            | '\x7d' :: r4 => some (.dict acc, r4)
            | _ => Option.none
        | _ => Option.none
    | _ => Option.none

/-- Elements of a JSON array, starting at a value. -/
def parseJArrLoop : ℕ → List PyVal → List Char → Option (PyVal × List Char)
  | 0, _, _ => Option.none
  | f + 1, acc, cs =>
    match parseJValue f cs with
    | Option.none => Option.none
    | some (v, r1) =>
      match skipWs r1 with
      | ',' :: r2 => parseJArrLoop f (v :: acc) r2
      | ']' :: r2 => some (.list (v :: acc).reverse, r2)
      | _ => Option.none

end

/-- `json.loads`: parse one JSON document and require that only whitespace
follows it; `none` models `json.JSONDecodeError`. -/
def jsonLoads (s : String) : Option PyVal :=
  match parseJValue (s.length + 1) s.data with
  | some (v, rest) => if (skipWs rest).isEmpty then some v else Option.none
  | Option.none => Option.none

/-! ## `WritingAssessmentService` response parsing (`app/service/writing.py`)

The text fallback `_extract_useful_info_from_text` scans with `re.search` for
patterns of the form `<keyword>.*?(\d+\.?\d*)` over the lowercased text.  In
such a pattern `.` does not cross a newline and the lazy `.*?` stops at the
first digit, so the semantics is: the match succeeds at the first keyword
occurrence that is followed by a digit later on the same line, and the number
matched is the maximal `digits [. digits]` run starting at that first digit. -/

/-- The number matched by `\d+\.?\d*` whose first digit is at the head. -/
def numAt (cs : List Char) : ℚ :=
  let (ds, r1) := spanDigits cs
  match r1 with
  | '.' :: r2 => qAdd (digitsToNat ds : ℚ) (fracOfDigits (spanDigits r2).1)
  | _ => (digitsToNat ds : ℚ)

/-- First number on the current line (stopping at a newline, as `.` does). -/
def firstNumInLine : List Char → Option ℚ
  | [] => Option.none
  | c :: rest =>
    if c = '\n' then Option.none
    else if c.isDigit then some (numAt (c :: rest))
    else firstNumInLine rest

/-- `re.search(kw + ".*?(\d+\.?\d*)", text)`: try each occurrence of the
keyword from the left; succeed at the first one with a number later on its
line. -/
def searchKwNum (kw : List Char) : List Char → Option ℚ
  | [] => Option.none
  | c :: rest =>
    if listStarts kw (c :: rest) then
      match firstNumInLine ((c :: rest).drop kw.length) with
      | some q => some q
      | Option.none => searchKwNum kw rest
    else searchKwNum kw rest

/-- After `<keyword>`, the feedback patterns continue with
`.*?(?:anchor₁|…):\s*([^.]+)`: scan the rest of the line for the first anchor
word followed by a colon, skip whitespace greedily, and capture the maximal
run of non-period characters (backtracking one whitespace character when the
run would otherwise be empty, per the regex engine). -/
def scanAnchor (anchors : List (List Char)) : List Char → Option (List Char)
  | [] => Option.none
  | c :: rest =>
    match anchors.find? (fun a => listStarts (a ++ [':']) (c :: rest)) with
    | some a =>
      let after := (c :: rest).drop (a.length + 1)
      let ws := after.takeWhile (fun ch => isPyWs ch)
      let r1 := after.dropWhile (fun ch => isPyWs ch)
      let cap := r1.takeWhile (fun ch => ch ≠ '.')
      if !cap.isEmpty then some cap
      else
        match ws.getLast? with
        | some l => some [l]
        | Option.none => scanAnchor anchors rest
    | Option.none => if c = '\n' then Option.none else scanAnchor anchors rest

/-- `re.search("(?:kw₁|kw₂).*?(?:anchor…):\s*([^.]+)", text)`. -/
def searchKwAnchored (kws anchors : List (List Char)) : List Char → Option (List Char)
  | [] => Option.none
  | c :: rest =>
    match kws.find? (fun k => listStarts k (c :: rest)) with
    | some k =>
      match scanAnchor anchors ((c :: rest).drop k.length) with
      | some cap => some cap
      | Option.none => searchKwAnchored kws anchors rest
    | Option.none => searchKwAnchored kws anchors rest

/-- Python's `round(q, 1)` idealized on exact rationals: round half to even at
one decimal place. -/
def pyRound1 (q : ℚ) : ℚ :=
  let x := qMul q ((10 : ℕ) : ℚ)
  let n : ℤ := Rat.floor x
  let r := qAdd x (qNeg (n : ℚ))
  let n2 : ℤ :=
    if r < mkRat 1 2 then n
    else if mkRat 1 2 < r then n + 1
    else if n % 2 = 0 then n else n + 1
  qDivNat ((n2 : ℚ)) 10

/-- The six score patterns of `_extract_useful_info_from_text`, in source
order, with the info key each one stores to. -/
def scorePatterns : List (String × String) :=
  [("grammar", "grammar_score"), ("vocabulary", "vocabulary_score"),
   ("structure", "structure_score"), ("content", "content_score"),
   ("overall", "overall_score"), ("coherence", "coherence_score")]

/-- The four feedback patterns, with their info keys. -/
def feedbackPatterns : List (String × String) :=
  [("grammar", "grammar_feedback"), ("vocabulary", "vocabulary_feedback"),
   ("structure", "structure_feedback"), ("content", "content_feedback")]

/-- `WritingAssessmentService._extract_useful_info_from_text`.  Note the
overall-score recomputation: the code reads `info.get(f"<cat>_score", 5.0)`
where `cat` iterates over `grammar_score`, `vocabulary_score`,
`coherence_score`, `content_score` — keys that already end in `_score` — so
the looked-up keys end in `_score_score`; and its guard `if scores:` tests a
four-element list literal, which is always truthy. -/
def extractUsefulInfo (text : String) : PyDict :=
  let low := text.data.map Char.toLower
  let info : PyDict := []
  let info := scorePatterns.foldl (fun acc kv =>
    match searchKwNum kv.1.data low with
    | some q => dset acc kv.2 (.float (.fin q))
    | Option.none => acc) info
  let cats : List String :=
    ["grammar_score", "vocabulary_score", "coherence_score", "content_score"]
  let scores : List ℚ := cats.map (fun cat =>
    match dget info (cat ++ "_score") with
    | some (.float (.fin q)) => q
    | _ => 5)
  let info := dset info "overall_score"
    (.float (.fin (pyRound1 (qDivNat (scores.foldl qAdd 0) scores.length))))
  let info := feedbackPatterns.foldl (fun acc kv =>
    match searchKwAnchored [kv.1.data]
        [['f','e','e','d','b','a','c','k'], ['c','o','m','m','e','n','t'],
         ['n','o','t','e']] low with
    | some cap => dset acc kv.2 (.str (pyStrip (String.mk cap)))
    | Option.none => acc) info
  let info :=
    match searchKwAnchored
        [['o','v','e','r','a','l','l'], ['g','e','n','e','r','a','l']]
        [['f','e','e','d','b','a','c','k'],
         ['a','s','s','e','s','s','m','e','n','t'],
         ['c','o','m','m','e','n','t']] low with
    | some cap => dset info "general_feedback" (.str (pyStrip (String.mk cap)))
    | Option.none => info
  info

/-- `WritingAssessmentService._extract_from_text`: the dictionary built from
the extracted info with its fixed defaults; the raw content goes verbatim
into `detailed_feedback` and `suggested_writing`. -/
def extractFromText (content : String) : PyDict :=
  let info := extractUsefulInfo content
  [("overall_score", (dget info "overall_score").getD (.float (.fin 5))),
   ("grammar_score", (dget info "grammar_score").getD (.float (.fin 5))),
   ("vocabulary_score", (dget info "vocabulary_score").getD (.float (.fin 5))),
   ("coherence_score", (dget info "coherence_score").getD (.float (.fin 5))),
   ("content_score", (dget info "content_score").getD (.float (.fin 5))),
   ("general_feedback",
     (dget info "general_feedback").getD (.str "AI response parsing completed")),
   ("detailed_feedback", .str content),
   ("grammar_errors", (dget info "grammar_errors").getD (.list [])),
   ("grammar_improvements", (dget info "grammar_improvements").getD (.list [])),
   ("vocabulary_suggestions", (dget info "vocabulary_suggestions").getD (.list [])),
   ("vocabulary_improvements", (dget info "vocabulary_improvements").getD (.list [])),
   ("improvement_suggestions", (dget info "improvement_suggestions").getD (.list [])),
   ("suggested_writing", .str content)]

/-- `WritingAssessmentService._get_default_value`: the defaults dictionary,
consulted with `defaults.get(field, "")`. -/
def defaultsDict : PyDict :=
  [("overall_score", .float (.fin 5)), ("grammar_score", .float (.fin 5)),
   ("vocabulary_score", .float (.fin 5)), ("coherence_score", .float (.fin 5)),
   ("content_score", .float (.fin 5)),
   ("general_feedback", .str "Assessment incomplete"),
   ("detailed_feedback", .str "Some assessment data is missing"),
   ("grammar_errors", .list []), ("grammar_improvements", .list []),
   ("vocabulary_suggestions", .list []), ("vocabulary_improvements", .list []),
   ("improvement_suggestions", .list []), ("suggested_writing", .str "")]

/-- `_get_default_value(field)`. -/
def getDefaultValue (field : String) : PyVal :=
  (dget defaultsDict field).getD (.str "")

/-- The six required fields checked by `_parse_ai_response`. -/
def requiredFields : List String :=
  ["overall_score", "grammar_score", "vocabulary_score", "coherence_score",
   "content_score", "general_feedback"]

/-- The five score fields clamped by `_parse_ai_response`. -/
def scoreFields : List String :=
  ["overall_score", "grammar_score", "vocabulary_score", "coherence_score",
   "content_score"]

/-- `WritingAssessmentService._parse_ai_response`.  `json.loads` failures
(`JSONDecodeError`) fall back to `_extract_from_text`; on a parsed document
the required fields are backfilled with defaults and every score field is
passed through `max(0.0, min(10.0, float(...)))`, whose `float` conversion
raises `ValueError`/`TypeError` on non-numeric values — exceptions the
function does not catch.  A parsed document that is not a dict always ends in
a `TypeError`: for scalars the `field not in data` membership test itself
raises, and for strings and lists either the backfill item-assignment
`data[field] = …` or the score lookup `data[field]` does. -/
def parseAiResponse (response : String) : Except PyErr PyDict :=
  match jsonLoads response with
  | Option.none => .ok (extractFromText response)
  | some (.dict d) =>
    let d1 := requiredFields.foldl (fun acc f =>
      match dget acc f with
      | some _ => acc
      | Option.none => dset acc f (getDefaultValue f)) d
    scoreFields.foldlM (fun acc f =>
      match dget acc f with
      | some v => do
        let x ← pyFloat v
        pure (dset acc f (.float (PFloat.pyMax (.fin 0) (PFloat.pyMin (.fin 10) x))))
      | Option.none => pure acc) d1
  | some _ => .error .typeError

/-- Rational score stored at a key, if any. -/
def scoreOf (d : PyDict) (k : String) : Option ℚ :=
  match dget d k with
  | some (.float (.fin q)) => some q
  | _ => Option.none

/-- String stored at a key, if any. -/
def strValOf (d : PyDict) (k : String) : Option String :=
  match dget d k with
  | some (.str s) => some s
  | _ => Option.none

/-- Modelled from the spec: the span-extraction step the specification
describes for the response parser — "search the text for the first
balanced-looking `\x7b...\x7d` span (greedy match from first `\x7b` to last
`\x7d`)".  No such step exists in `_parse_ai_response`; this definition
follows the spec's words so the code's behavior can be compared against it. -/
def specBraceSpan (s : String) : Option String :=
  let fromFirst := s.data.dropWhile (fun c => c ≠ '\x7b')
  let span := (fromFirst.reverse.dropWhile (fun c => c ≠ '\x7d')).reverse
  match fromFirst, span with
  | [], _ => Option.none
  | _, [] => Option.none
  | _, _ => some (String.mk span)

/-- A well-formed JSON document whose score field holds the non-numeric
string `"abc"`. -/
def nonNumericScoreDoc : String := "\x7b\"overall_score\": \"abc\"\x7d"

/-- A truncated JSON document: a valid object prefix with no closing brace. -/
def truncatedDoc : String := "\x7b\"overall_score\": 5"

/-- Prose wrapped around a valid JSON object. -/
def proseWrappedDoc : String := "Result: \x7b\"overall_score\": 3\x7d"

/-- Vendor text with the four category scores present as 6, 7, 8, 9 and no
overall score. -/
def fourScoresDoc : String := "grammar: 6 vocabulary: 7 coherence: 8 content: 9"

/-- Vendor text where the keyword search does find an overall score. -/
def overallNineDoc : String := "overall: 9"

/-! ## Provider adapters (`app/ext/providers/`)

The vendor HTTP call is modelled by an environment `env : ℕ → VendorOutcome`
giving the outcome each successive HTTP attempt would observe; an adapter's
result records how many attempts it actually made.  `raise_for_status` of
httpx raises on any non-2xx status. -/

/-- Outcome of one HTTP attempt: a reply with a status and decoded JSON body,
or a connection-level error (timeout, DNS, refused …). -/
inductive VendorOutcome where
  | reply (status : ℕ) (body : PyVal)
  | connError

/-- `ProviderConfig` of `app/ext/providers/base.py`. -/
structure ProviderConfig where
  provider_name : String
  api_key : String
  model : Option String := Option.none
  api_secret : Option String := Option.none
  temperature : Option ℚ := some (mkRat 7 10)
  max_tokens : ℕ := 2048
  timeout_seconds : ℕ := 300

/-- `LLmResponse` of `app/ext/providers/base.py` (`content: Any`). -/
structure LLmResponse where
  content : PyVal
  provider_name : String
  model : String

/-- An adapter's return value together with the number of HTTP attempts the
call performed. -/
structure GenResult where
  resp : LLmResponse
  attempts : ℕ

/-- Pydantic attribute access on a `ProviderConfig`: defined fields only,
`none` models the `AttributeError` raised for any other name. -/
def configGetAttr (c : ProviderConfig) (attr : String) : Option PyVal :=
  if attr = "provider_name" then some (.str c.provider_name)
  else if attr = "api_key" then some (.str c.api_key)
  else if attr = "model" then some ((c.model.map PyVal.str).getD .none)
  else if attr = "api_secret" then some ((c.api_secret.map PyVal.str).getD .none)
  else if attr = "temperature" then
    some ((c.temperature.map (fun q => PyVal.float (.fin q))).getD .none)
  else if attr = "max_tokens" then some (.int c.max_tokens)
  else if attr = "timeout_seconds" then some (.int c.timeout_seconds)
  else Option.none

/-- Does `pat` occur as a contiguous substring of `hay`? -/
def containsSub : List Char → List Char → Bool
  | [], pat => pat.isEmpty
  | c :: rest, pat => listStarts pat (c :: rest) || containsSub rest pat

/-- Chat-completions content extraction shared by the Grok adapter:
`content = ""` unless `data` and `data.get("choices")` are truthy, in which
case `data["choices"][0]["message"].get("content", "")` is read; any
exception inside (missing key, wrong shape) is absorbed by the adapter's
`except` into empty content. -/
def chatContent (body : PyVal) : PyVal :=
  match body with
  | .dict d =>
    if pyTruthy (.dict d) && pyTruthy ((dget d "choices").getD .none) then
      match (dget d "choices").getD .none with
      | .list (.dict c0 :: _) =>
        match dget c0 "message" with
        | some (.dict m) => (dget m "content").getD (.str "")
        | _ => .str ""
      | _ => .str ""
    else .str ""
  | _ => .str ""

namespace GrokProvider

/-- `GrokProvider.generate_response`: a single `client.post`, then
`raise_for_status`; every exception (connection error or non-2xx status) is
absorbed into an empty-content `LLmResponse`.  There is no retry loop. -/
def generate_response (cfg : ProviderConfig) (env : ℕ → VendorOutcome) : GenResult :=
  let model := cfg.model.getD "mixtral-8x7b"
  let content : PyVal :=
    match env 0 with
    | .connError => .str ""
    | .reply status body =>
      if status < 200 ∨ 300 ≤ status then .str "" else chatContent body
  ⟨⟨content, cfg.provider_name, model⟩, 1⟩

end GrokProvider

/-- Concatenate `part["text"]` over the parts list, per the Gemini adapter's
loop `for part in parts: if "text" in part: text_content += part["text"]`;
a `TypeError` inside (non-string text value, membership test on a scalar,
indexing a string or list) is absorbed by the `except` into empty content. -/
def geminiJoinParts : List PyVal → String → PyVal
  | [], acc => .str acc
  | p :: rest, acc =>
    match p with
    | .dict pd =>
      match dget pd "text" with
      | some (.str t) => geminiJoinParts rest (acc ++ t)
      | some _ => .str ""
      | Option.none => geminiJoinParts rest acc
    | .str s => if containsSub s.data ['t', 'e', 'x', 't'] then .str "" else geminiJoinParts rest acc
    | .list xs =>
      if xs.any (fun v => match v with | .str t => t = "text" | _ => false) then .str ""
      else geminiJoinParts rest acc
    | _ => .str ""

/-- Content extraction of the Gemini adapter: empty content when the reply
has no candidates or no parts, the concatenated part texts otherwise; any
exception on an unexpected shape is absorbed into empty content. -/
def geminiContent (body : PyVal) : PyVal :=
  match body with
  | .dict d =>
    match (dget d "candidates").getD (.list []) with
    | .list [] => .str ""
    | .list (c0 :: _) =>
      match c0 with
      | .dict c =>
        match (dget c "content").getD (.dict []) with
        | .dict cd =>
          match (dget cd "parts").getD (.list []) with
          | .list [] => .str ""
          | .list ps => geminiJoinParts ps ""
          | _ => .str ""
        | _ => .str ""
      | _ => .str ""
    | _ => .str ""
  | _ => .str ""

namespace GeminiProvider

/-- `GeminiProvider.generate_response`: a single `client.post` with
structured-output schema, `raise_for_status`, then candidate/part
extraction; every exception is absorbed into an empty-content response.
There is no retry loop. -/
def generate_response (cfg : ProviderConfig) (env : ℕ → VendorOutcome) : GenResult :=
  let model := cfg.model.getD "gemini-2.0-flash-exp"
  let content : PyVal :=
    match env 0 with
    | .connError => .str ""
    | .reply status body =>
      if status < 200 ∨ 300 ≤ status then .str "" else geminiContent body
  ⟨⟨content, cfg.provider_name, model⟩, 1⟩

end GeminiProvider

namespace MetaProvider

/-- `MetaProvider.generate_response`: line 15 reads `self.config.model_name`
before the `try` block, but `ProviderConfig` has no `model_name` field
(its field is `model`), so pydantic raises `AttributeError` on every call and
no response object is ever returned.  (Even were that fixed, both `return`
sites construct `LLmResponse(..., model_name=...)` while `LLmResponse`
requires `model`, a pydantic `ValidationError` — including the one in the
`except` handler.) -/
def generate_response (cfg : ProviderConfig) (env : ℕ → VendorOutcome) :
    Except PyErr GenResult :=
  match configGetAttr cfg "model_name" with
  | Option.none => .error .attributeError
  | some _ =>
    match env 0 with
    | _ => .error .validationError

end MetaProvider

/-! ## Adapter dispatch (`LLMManager._ensure_provider`) -/

/-- `AIModel` composite (`app/model/composite.py`). -/
structure AIModel where
  id : String
  name : String
  provider_id : String
  is_active : Bool
  deriving DecidableEq, Repr

/-- `Provider` composite (`app/model/composite.py`).  The `Optional` list of
models is collapsed to a plain list: `None` and `[]` are indistinguishable by
the truthiness tests the code performs on it. -/
structure CProvider where
  id : String
  name : String
  api_key : String
  is_active : Bool
  ai_models : List AIModel
  deriving DecidableEq, Repr

/-- The four adapter classes. -/
inductive AdapterKind where
  | openai
  | meta
  | grok
  | gemini
  deriving DecidableEq, Repr

/-- The substring dispatch of `LLMManager._ensure_provider` over the
lowercased provider name, in source order, defaulting to the OpenAI
adapter. -/
def dispatchKind (name0 : String) : AdapterKind :=
  let name := name0.data.map Char.toLower
  if containsSub name ['o', 'p', 'e', 'n', 'a', 'i'] then .openai
  else if containsSub name ['m', 'e', 't', 'a'] || containsSub name ['l', 'l', 'a', 'm', 'a'] then .meta
  else if containsSub name ['g', 'r', 'o', 'k'] || containsSub name ['g', 'r', 'o', 'q'] then .grok
  else if containsSub name ['g', 'e', 'm', 'i', 'n', 'i'] || containsSub name ['g', 'o', 'o', 'g', 'l', 'e'] then .gemini
  else .openai

namespace LLMManager

/-- `LLMManager._ensure_provider`, given the resolved active provider:
chooses the first active model's name (if the provider has models), builds
the `ProviderConfig` from the provider's name and API key, and dispatches on
name substrings. -/
def ensure_provider (p : CProvider) : AdapterKind × ProviderConfig :=
  let active_models := p.ai_models.filter (fun m => m.is_active)
  let model : Option String :=
    if !p.ai_models.isEmpty then
      match active_models with
      | [] => Option.none
      | m :: _ => some m.name
    else Option.none
  (dispatchKind p.name, { provider_name := p.name, api_key := p.api_key, model := model })

end LLMManager

/-- Case-insensitive substring test on a provider's name. -/
def nameHasSub (p : CProvider) (sub : String) : Bool :=
  containsSub (p.name.data.map Char.toLower) sub.data

/-- A concrete provider configuration used by witnesses. -/
def sampleConfig : ProviderConfig :=
  { provider_name := "grok", api_key := "key-123", model := some "mixtral-8x7b" }

/-- An environment in which every HTTP attempt would fail with 503. -/
def always503 : ℕ → VendorOutcome := fun _ => .reply 503 (.dict [])

/-- A provider whose name matches none of the dispatch substrings. -/
def mysteryProvider : CProvider :=
  { id := "p1", name := "Mystery-Vendor", api_key := "mk-1", is_active := true,
    ai_models := [] }

/-! ## Assessment orchestrator (`WritingAssessmentService.assess_writing`)

The steps delegated to external collaborators — the prompt template's
`build()`, `LLMManager.generate` (which raises `HTTPException(500)` when no
active provider is configured), and the two pydantic
`WritingAssessmentResponse(...)` constructions — are passed in as outcome
oracles.  The distinguishing control flow of the source is the single
`except Exception` handler, which calls
`self._create_fallback_response(request, llm_response, str(e))`: when the
exception arose before line 59 bound `llm_response` (during prompt building
or the vendor call), evaluating that name inside the handler raises
`UnboundLocalError`, which propagates to the caller. -/

/-- `assess_writing`, parameterized over a result type `W` for the
constructed response. -/
def assessWriting {W : Type}
    (buildPrompt : Except PyErr String)
    (generate : String → Except PyErr LLmResponse)
    (buildResponse : PyDict → LLmResponse → Except PyErr W)
    (fallbackResponse : LLmResponse → Except PyErr W) :
    Except PyErr W :=
  match buildPrompt with
  | .error _ => .error .unboundLocalError
  | .ok prompt =>
    match generate prompt with
    | .error _ => .error .unboundLocalError
    | .ok llm =>
      let parsed : Except PyErr PyDict :=
        match llm.content with
        | .str s => parseAiResponse s
        | _ => .error .typeError
      match parsed with
      | .error _ => fallbackResponse llm
      | .ok data =>
        match buildResponse data llm with
        | .error _ => fallbackResponse llm
        | .ok w => .ok w

/-! ## Provider selection / cache (`app/service/provider.py`)

The persistent store and the module-level `_current_provider` cache form the
service state.  Uncommitted session updates are discarded when the service
function returns without `commit` (the surrounding request session rolls an
unfinished transaction back), so only the explicit `commit()` point publishes
changes to `db`.  Injected failures: `dbFail` makes the load query raise (its
`except` clears the cache and returns `None`), and `UpdateFailPoint` makes
the corresponding statement of `update_provider` raise (caught by its
`except`, which rolls back and returns `IO_ERROR`). -/

/-- A `provider` table row with its `ai_models` relationship
(`app/model/db.py`). -/
structure ProviderRow where
  id : String
  name : String
  api_key : String
  is_active : Bool
  ai_models : List AIModel
  deriving DecidableEq, Repr

/-- The provider-service state: committed table rows plus the process-wide
`_current_provider` slot. -/
structure SvcState where
  db : List ProviderRow
  cache : Option CProvider
  deriving DecidableEq, Repr

/-- The composite cached for a loaded row: `Provider.from_db` followed by the
overwrite `_current_provider.ai_models = [active models]`, so the cache holds
only the active-flagged models. -/
def composite_of (p : ProviderRow) : CProvider :=
  { id := p.id, name := p.name, api_key := p.api_key, is_active := p.is_active,
    ai_models := p.ai_models.filter (fun m => m.is_active) }

/-- `load_and_get_provider`: select the single active row (eagerly loading
models), cache its composite with active models only; when the query raises
(`dbFail`), finds no row, or finds more than one (`scalar_one_or_none`
raises `MultipleResultsFound`, caught by the `except`), the cache is set to
`None` and `None` is returned. -/
def load_and_get_provider (dbFail : Bool) (st : SvcState) :
    Option CProvider × SvcState :=
  if dbFail then (Option.none, { st with cache := Option.none })
  else
    match st.db.filter (fun p => p.is_active) with
    | [p] =>
      let cp := composite_of p
      (some cp, { st with cache := some cp })
    | _ => (Option.none, { st with cache := Option.none })

/-- Which statement of `update_provider` raises, if any. -/
inductive UpdateFailPoint where
  | noFail
  | atUnsetAll
  | atSetActive
  | atCommit
  deriving DecidableEq, Repr

/-- The service-level result of `update_provider`. -/
inductive UpdateResult where
  | ok (p : CProvider)
  | dataNotFound
  | ioError
  deriving DecidableEq, Repr

/-- `update_provider`: inside one transaction, unset `is_active` on every
row, set it on the row matching `provider_id` (returning `DATA_NOT_FOUND`
without commit when its rowcount is 0), commit, then reload the cache via
`load_and_get_provider`; when the reload yields no provider the function
returns `IO_ERROR` (the reload's own `except` has already set the cache to
`None`).  Any statement raising is caught by the `except`, which rolls the
transaction back and returns `IO_ERROR` with state untouched. -/
def update_provider (pid : String) (fp : UpdateFailPoint) (reloadFails : Bool)
    (st : SvcState) : UpdateResult × SvcState :=
  if fp = .atUnsetAll then (.ioError, st)
  else
    let pending1 := st.db.map (fun p => { p with is_active := false })
    if fp = .atSetActive then (.ioError, st)
    else
      let pending2 := pending1.map
        (fun p => if p.id = pid then { p with is_active := true } else p)
      let rowcount := (st.db.filter (fun p => p.id = pid)).length
      if rowcount = 0 then (.dataNotFound, st)
      else if fp = .atCommit then (.ioError, st)
      else
        let committed : SvcState := { st with db := pending2 }
        match load_and_get_provider reloadFails committed with
        | (some cp, st2) => (.ok cp, st2)
        | (Option.none, st2) => (.ioError, st2)

/-- Concrete rows for the activation witnesses: `rowA` is active, `rowB` is
inactive and owns one active and one inactive model. -/
def rowA : ProviderRow :=
  { id := "a", name := "OpenAI", api_key := "ka", is_active := true, ai_models := [] }

/-- See `rowA`. -/
def rowB : ProviderRow :=
  { id := "b", name := "Gemini", api_key := "kb", is_active := false,
    ai_models :=
      [{ id := "m1", name := "gemini-2.0-flash", provider_id := "b", is_active := true },
       { id := "m2", name := "gemini-old", provider_id := "b", is_active := false }] }

/-- The prior state for the C6 counterexample: the cache holds row A's
composite. -/
def c6State : SvcState := ⟨[rowA, rowB], some (composite_of rowA)⟩

/-! ## Theorems settling the claims -/

/-- The Gemini clamp sends every float either to `nan` or into `[0, 10]`. -/
theorem gemini_clamp_cases (p : PFloat) :
    (if PFloat.lt p (.fin 0) then PFloat.fin 0
     else if PFloat.lt (.fin 10) p then PFloat.fin 10
     else p) = PFloat.nan ∨
    inRange010 (if PFloat.lt p (.fin 0) then PFloat.fin 0
      else if PFloat.lt (.fin 10) p then PFloat.fin 10
      else p) := by
  cases p with
  | fin q =>
    by_cases h0 : q < 0
    · right
      simp [PFloat.lt, h0, inRange010]
    · by_cases h10 : (10 : ℚ) < q
      · right
        simp only [PFloat.lt, decide_eq_true_eq, h0, h10, if_true, if_false]
        exact ⟨10, by norm_num⟩
      · right
        simp only [PFloat.lt, decide_eq_true_eq, h0, h10, if_false]
        exact ⟨q, rfl, le_of_not_lt h0, le_of_not_lt h10⟩
  | nan => left; simp [PFloat.lt]
  | inf =>
    right
    simp only [PFloat.lt, if_false, if_true]
    exact ⟨10, by norm_num⟩
  | ninf =>
    right
    simp only [PFloat.lt, if_true]
    exact ⟨0, by norm_num⟩

/-- The OpenAI clamp `max(0.0, min(10.0, p))` always lands in `[0, 10]`,
`nan` included (Python's `min`/`max` keep their first argument on `nan`). -/
theorem openai_clamp_mem (p : PFloat) :
    inRange010 (PFloat.pyMax (.fin 0) (PFloat.pyMin (.fin 10) p)) := by
  cases p with
  | fin q =>
    by_cases h10 : q < 10
    · by_cases h0 : (0 : ℚ) < q
      · refine ⟨q, ?_, le_of_lt h0, le_of_lt h10⟩
        simp [PFloat.pyMin, PFloat.pyMax, PFloat.lt, h10, h0]
      · refine ⟨0, ?_, le_refl 0, by norm_num⟩
        simp [PFloat.pyMin, PFloat.pyMax, PFloat.lt, h10, h0]
    · refine ⟨10, ?_, by norm_num, le_refl 10⟩
      simp [PFloat.pyMin, PFloat.pyMax, PFloat.lt, h10]
  | nan =>
    refine ⟨10, ?_, by norm_num, le_refl 10⟩
    simp [PFloat.pyMin, PFloat.pyMax, PFloat.lt]
  | inf =>
    refine ⟨10, ?_, by norm_num, le_refl 10⟩
    simp [PFloat.pyMin, PFloat.pyMax, PFloat.lt]
  | ninf =>
    refine ⟨0, ?_, le_refl 0, by norm_num⟩
    simp [PFloat.pyMin, PFloat.pyMax, PFloat.lt]

/-- C1 (counterexample).  The claim says `_parse_score` returns a float in
`[0, 10]` for every input, but the Gemini variant applied to the float `nan`
returns `nan`, which lies in no interval: `nan < 0.0` and `nan > 10.0` are
both false, so the clamp passes `nan` through unchanged. -/
theorem parse_score_nan_escapes_range :
    GeminiProvider.parse_score (.float .nan) = PFloat.nan ∧ ¬ inRange010 PFloat.nan := by
  constructor
  · rfl
  · rintro ⟨q, h, -⟩
    exact PFloat.noConfusion h

/-- C1 (amended).  Score coercion is total, and bounded except on NaN: the
Gemini `_parse_score` returns either `nan` (exactly on NaN input) or a float
in `[0, 10]`; the OpenAI `_parse_score` is bounded in `[0, 10]` for every
input including NaN; both parse the text before the first `/` of a fraction
string and return exactly `0.0` on unparsable input such as `"garbage"`. -/
theorem parse_score_total_bounded :
    (∀ v : PyVal, GeminiProvider.parse_score v = PFloat.nan ∨
      inRange010 (GeminiProvider.parse_score v)) ∧
    (∀ v : PyVal, inRange010 (OpenAIProvider.parse_score v)) ∧
    GeminiProvider.parse_score (.str "garbage") = .fin 0 ∧
    OpenAIProvider.parse_score (.str "garbage") = .fin 0 ∧
    GeminiProvider.parse_score (.str "7/10") = .fin 7 ∧
    OpenAIProvider.parse_score (.str "7/10") = .fin 7 := by
  refine ⟨fun v => ?_, fun v => ?_, by rfl, by rfl, by decide, by decide⟩
  · exact gemini_clamp_cases (GeminiProvider.parse_score_raw v)
  · exact openai_clamp_mem (GeminiProvider.parse_score_raw v)

/-- C2 (counterexample).  The claim says `_parse_ai_response` returns a
well-formed mapping for every input string, including well-formed JSON whose
score fields hold non-numeric values such as `"abc"`; but on such a document
`json.loads` succeeds and the range-clamp's `float("abc")` raises a
`ValueError` that the function does not catch (its only handler is for
`json.JSONDecodeError`), so the exception propagates past its boundary. -/
theorem parse_ai_response_raises_on_bad_score :
    parseAiResponse nonNumericScoreDoc = .error .valueError := by rfl

/-- C2 (amended).  The parser never raises on inputs whose direct JSON parse
fails — including truncated JSON — degrading to the regex fallback, and the
fallback mapping always carries all six required fields; but (per the
counterexample) well-formed JSON with a non-float-coercible score field makes
it raise rather than return a mapping. -/
theorem parse_ai_response_total_on_parse_failure (s : String)
    (h : jsonLoads s = Option.none) :
    parseAiResponse s = .ok (extractFromText s) ∧
    (requiredFields.all fun f => (dget (extractFromText s) f).isSome) = true := by
  constructor
  · unfold parseAiResponse
    rw [h]
  · rfl

/-- Witness for C2's amended theorem at the truncated document. -/
theorem parse_ai_response_total_on_parse_failure_witness :
    parseAiResponse truncatedDoc = .ok (extractFromText truncatedDoc) ∧
    (requiredFields.all fun f => (dget (extractFromText truncatedDoc) f).isSome) = true :=
  parse_ai_response_total_on_parse_failure truncatedDoc (by rfl)

/-- C7.  The claim (and spec) say the fallback computes `overall_score` as
the rounded mean of the four found category scores — 7.5 here — and keeps an
overall score the keyword search found.  The code instead averages
`info.get(f"<cat>_score", 5.0)` where `cat` already ends in `_score`, so all
four lookups miss and default to 5.0, and it stores the result
unconditionally: with 6, 7, 8, 9 found the fallback yields 5.0, not 7.5, and
a found overall score of 9 is likewise overwritten with 5.0. -/
theorem extract_overall_score_always_five :
    scoreOf (extractFromText fourScoresDoc) "grammar_score" = some 6 ∧
    scoreOf (extractFromText fourScoresDoc) "vocabulary_score" = some 7 ∧
    scoreOf (extractFromText fourScoresDoc) "coherence_score" = some 8 ∧
    scoreOf (extractFromText fourScoresDoc) "content_score" = some 9 ∧
    scoreOf (extractFromText fourScoresDoc) "overall_score" = some 5 ∧
    scoreOf (extractFromText fourScoresDoc) "overall_score" ≠ some (mkRat 15 2) ∧
    scoreOf (extractFromText overallNineDoc) "overall_score" = some 5 := by
  refine ⟨by rfl, by rfl, by rfl, by rfl, by rfl, ?_, by rfl⟩
  intro h
  rw [show scoreOf (extractFromText fourScoresDoc) "overall_score" = some 5 from rfl] at h
  have : (5 : ℚ) = mkRat 15 2 := Option.some.inj h
  exact absurd this (by decide)

/-- C8 (counterexample).  On prose wrapped around a valid JSON object, the
brace span of the text is itself valid JSON recovering `overall_score = 3`,
yet `_parse_ai_response` — whose only fallback after a failed `json.loads` is
the regex field extraction — returns the fallback mapping with
`overall_score = 5.0`: no span-extraction step runs, and the object's fields
are not recovered. -/
theorem parse_ai_response_no_brace_span_step :
    jsonLoads proseWrappedDoc = Option.none ∧
    specBraceSpan proseWrappedDoc = some "\x7b\"overall_score\": 3\x7d" ∧
    jsonLoads "\x7b\"overall_score\": 3\x7d" = some (.dict [("overall_score", .int 3)]) ∧
    parseAiResponse proseWrappedDoc = .ok (extractFromText proseWrappedDoc) ∧
    scoreOf (extractFromText proseWrappedDoc) "overall_score" = some 5 ∧
    (5 : ℚ) ≠ 3 := by
  refine ⟨by rfl, by rfl, by rfl, by rfl, by rfl, by decide⟩

/-- C8 (amended).  When direct JSON parsing fails, the parser's next and only
step is the regex-based field extraction — there is no brace-span parse — and
the fallback carries the raw text verbatim in `detailed_feedback` and
`suggested_writing`. -/
theorem parse_failure_goes_directly_to_text_extraction (s : String)
    (h : jsonLoads s = Option.none) :
    parseAiResponse s = .ok (extractFromText s) ∧
    strValOf (extractFromText s) "detailed_feedback" = some s ∧
    strValOf (extractFromText s) "suggested_writing" = some s := by
  refine ⟨?_, by rfl, by rfl⟩
  unfold parseAiResponse
  rw [h]

/-- Witness for C8's amended theorem at the prose-wrapped document. -/
theorem parse_failure_goes_directly_to_text_extraction_witness :
    parseAiResponse proseWrappedDoc = .ok (extractFromText proseWrappedDoc) ∧
    strValOf (extractFromText proseWrappedDoc) "detailed_feedback" = some proseWrappedDoc ∧
    strValOf (extractFromText proseWrappedDoc) "suggested_writing" = some proseWrappedDoc :=
  parse_failure_goes_directly_to_text_extraction proseWrappedDoc (by rfl)

/-- C4 (counterexample).  The claim says a vendor call failing with HTTP 503
is retried exactly 3 times; but `GrokProvider.generate_response` performs a
single `client.post` with no loop: under an environment answering 503 to
every attempt it makes exactly 1 attempt, not 3 (degrading to empty
content). -/
theorem grok_503_single_attempt :
    (GrokProvider.generate_response sampleConfig always503).attempts = 1 ∧
    (1 : ℕ) ≠ 3 ∧
    (GrokProvider.generate_response sampleConfig always503).resp.content = .str "" := by
  exact ⟨rfl, by decide, rfl⟩

/-- C4 (amended).  Vendor HTTP calls are a single attempt — no retry loop,
backoff or jitter exists: the Grok and Gemini adapters both make exactly one
attempt under every environment, and degrade to an empty-content response
(rather than raising) on any non-2xx status or connection error. -/
theorem vendor_call_single_attempt_degrades (cfg : ProviderConfig)
    (env : ℕ → VendorOutcome) :
    (GrokProvider.generate_response cfg env).attempts = 1 ∧
    (GeminiProvider.generate_response cfg env).attempts = 1 ∧
    (∀ st body, st < 200 ∨ 300 ≤ st →
      (GrokProvider.generate_response cfg (fun _ => .reply st body)).resp.content = .str "" ∧
      (GeminiProvider.generate_response cfg (fun _ => .reply st body)).resp.content = .str "") ∧
    (GrokProvider.generate_response cfg (fun _ => .connError)).resp.content = .str "" ∧
    (GeminiProvider.generate_response cfg (fun _ => .connError)).resp.content = .str "" := by
  refine ⟨rfl, rfl, fun st body h => ?_, rfl, rfl⟩
  constructor
  · simp only [GrokProvider.generate_response, if_pos h]
  · simp only [GeminiProvider.generate_response, if_pos h]

/-- Witness for C4's amended theorem: one 503 call makes one attempt and
returns empty content. -/
theorem vendor_call_single_attempt_degrades_witness :
    (GrokProvider.generate_response sampleConfig always503).attempts = 1 ∧
    (GrokProvider.generate_response sampleConfig (fun _ => .reply 503 (.dict []))).resp.content
      = .str "" :=
  ⟨(vendor_call_single_attempt_degrades sampleConfig always503).1,
   ((vendor_call_single_attempt_degrades sampleConfig always503).2.2.1 503 (.dict [])
     (Or.inr (by norm_num))).1⟩

/-- C9.  The Gemini adapter does return an empty-content response when the
vendor reply has no candidates or no parts; but the Meta adapter never
returns a response object at all: `self.config.model_name` on line 15 — read
before the `try` block — names a field `ProviderConfig` does not have, so
every call raises `AttributeError` to the caller instead of returning empty
content. -/
theorem meta_adapter_always_raises :
    (∀ (cfg : ProviderConfig) (env : ℕ → VendorOutcome),
      MetaProvider.generate_response cfg env = .error .attributeError) ∧
    (∀ cfg : ProviderConfig,
      (GeminiProvider.generate_response cfg
        (fun _ => .reply 200 (.dict [("candidates", .list [])]))).resp.content = .str "") ∧
    (∀ cfg : ProviderConfig,
      (GeminiProvider.generate_response cfg
        (fun _ => .reply 200 (.dict [("candidates",
          .list [.dict [("content", .dict [("parts", .list [])])]])]))).resp.content
        = .str "") := by
  exact ⟨fun cfg env => rfl, fun cfg => rfl, fun cfg => rfl⟩

/-- C10.  Adapter dispatch is total with a silent OpenAI default: the config
always carries the resolved provider's own API key; the case-insensitive
substring tests fire in the fixed order `openai`; `meta`/`llama`;
`grok`/`groq`; `gemini`/`google`; and a name matching none of the seven
substrings is dispatched to the OpenAI adapter rather than rejected. -/
theorem llm_dispatch_total_with_openai_default (p : CProvider) :
    (LLMManager.ensure_provider p).2.api_key = p.api_key ∧
    (LLMManager.ensure_provider p).1 = dispatchKind p.name ∧
    (nameHasSub p "openai" = true → dispatchKind p.name = .openai) ∧
    (nameHasSub p "openai" = false →
      (nameHasSub p "meta" || nameHasSub p "llama") = true →
      dispatchKind p.name = .meta) ∧
    (nameHasSub p "openai" = false →
      (nameHasSub p "meta" || nameHasSub p "llama") = false →
      (nameHasSub p "grok" || nameHasSub p "groq") = true →
      dispatchKind p.name = .grok) ∧
    (nameHasSub p "openai" = false →
      (nameHasSub p "meta" || nameHasSub p "llama") = false →
      (nameHasSub p "grok" || nameHasSub p "groq") = false →
      (nameHasSub p "gemini" || nameHasSub p "google") = true →
      dispatchKind p.name = .gemini) ∧
    (nameHasSub p "openai" = false →
      (nameHasSub p "meta" || nameHasSub p "llama") = false →
      (nameHasSub p "grok" || nameHasSub p "groq") = false →
      (nameHasSub p "gemini" || nameHasSub p "google") = false →
      dispatchKind p.name = .openai) := by
  refine ⟨rfl, rfl, ?_, ?_, ?_, ?_, ?_⟩ <;>
    intros <;>
    simp_all [dispatchKind, nameHasSub]

/-- Witness for C10 at a provider matching no substring: dispatched to the
OpenAI adapter with its own API key. -/
theorem llm_dispatch_total_with_openai_default_witness :
    (LLMManager.ensure_provider mysteryProvider).2.api_key = mysteryProvider.api_key ∧
    dispatchKind mysteryProvider.name = .openai :=
  ⟨(llm_dispatch_total_with_openai_default mysteryProvider).1,
   (llm_dispatch_total_with_openai_default mysteryProvider).2.2.2.2.2.2
     (by rfl) (by rfl) (by rfl) (by rfl)⟩

/-- C3.  The claim says `assess_writing` never throws and returns the
"technical error" fallback on every failure, including one occurring before
the vendor call assigns a response.  In the code, a failure in prompt
building or in the vendor call (e.g. `HTTPException(500)` when no active
provider is configured) reaches the handler with `llm_response` unbound, and
the handler itself raises `UnboundLocalError` to the caller; only failures
after `llm_response` is bound (such as the parser raising on non-numeric
score values) produce the fallback response. -/
theorem assess_writing_unbound_local {W : Type}
    (buildResponse : PyDict → LLmResponse → Except PyErr W)
    (fallbackResponse : LLmResponse → Except PyErr W) :
    (∀ (e : PyErr) (gen : String → Except PyErr LLmResponse),
      assessWriting (.error e) gen buildResponse fallbackResponse
        = .error .unboundLocalError) ∧
    (∀ (prompt : String) (gen : String → Except PyErr LLmResponse) (e : PyErr),
      gen prompt = .error e →
      assessWriting (.ok prompt) gen buildResponse fallbackResponse
        = .error .unboundLocalError) ∧
    (∀ (prompt : String) (llm : LLmResponse),
      llm.content = .str nonNumericScoreDoc →
      assessWriting (.ok prompt) (fun _ => .ok llm) buildResponse fallbackResponse
        = fallbackResponse llm) := by
  have hp : parseAiResponse nonNumericScoreDoc = .error .valueError := rfl
  refine ⟨fun e gen => rfl, fun prompt gen e h => ?_, fun prompt llm h => ?_⟩
  · simp only [assessWriting, h]
  · simp only [assessWriting, h, hp]

/-- Witness for C3: with no active provider the vendor-call step raises
`HTTPException`, and `assess_writing` raises `UnboundLocalError` instead of
returning a fallback response; with the failure after the vendor call, the
fallback is returned. -/
theorem assess_writing_unbound_local_witness :
    assessWriting (W := ℕ) (.ok "prompt") (fun _ => .error .httpException)
      (fun _ _ => .ok 0) (fun _ => .ok 7) = .error .unboundLocalError ∧
    assessWriting (W := ℕ) (.ok "prompt")
      (fun _ => .ok ⟨.str nonNumericScoreDoc, "grok", "m"⟩)
      (fun _ _ => .ok 0) (fun _ => .ok 7) = .ok 7 :=
  ⟨(assess_writing_unbound_local _ _).2.1 "prompt" (fun _ => .error .httpException)
      .httpException rfl,
   (assess_writing_unbound_local _ _).2.2 "prompt"
      ⟨.str nonNumericScoreDoc, "grok", "m"⟩ rfl⟩

/-- C5.  Activation establishes the at-most-one-active invariant: with rows
`a` (active) and `b`, `update_provider b.id` leaves `a` inactive and `b`
active, returns `b`'s composite, and caches `b` with only its active-flagged
models; with an id matching no row it returns `DATA_NOT_FOUND` and leaves
every row's flag — and the cache — unchanged. -/
theorem update_provider_activation (a b : ProviderRow) (cache0 : Option CProvider)
    (hab : a.id ≠ b.id) (_ha : a.is_active = true) :
    update_provider b.id .noFail false ⟨[a, b], cache0⟩ =
      (.ok (composite_of { b with is_active := true }),
       ⟨[{ a with is_active := false }, { b with is_active := true }],
        some (composite_of { b with is_active := true })⟩) ∧
    (composite_of { b with is_active := true }).ai_models
      = b.ai_models.filter (fun m => m.is_active) ∧
    ∀ pid, pid ≠ a.id → pid ≠ b.id →
      update_provider pid .noFail false ⟨[a, b], cache0⟩ =
        (.dataNotFound, ⟨[a, b], cache0⟩) := by
  refine ⟨?_, rfl, fun pid h1 h2 => ?_⟩
  · simp [update_provider, load_and_get_provider, composite_of, hab]
  · simp [update_provider, Ne.symm h1, Ne.symm h2]

/-- Witness for C5 at the concrete two-row store. -/
theorem update_provider_activation_witness :
    update_provider rowB.id .noFail false ⟨[rowA, rowB], Option.none⟩ =
      (.ok (composite_of { rowB with is_active := true }),
       ⟨[{ rowA with is_active := false }, { rowB with is_active := true }],
        some (composite_of { rowB with is_active := true })⟩) ∧
    update_provider "zzz" .noFail false ⟨[rowA, rowB], Option.none⟩ =
      (.dataNotFound, ⟨[rowA, rowB], Option.none⟩) :=
  ⟨(update_provider_activation rowA rowB Option.none (by decide) rfl).1,
   (update_provider_activation rowA rowB Option.none (by decide) rfl).2.2 "zzz"
     (by decide) (by decide)⟩

/-- C6 (counterexample).  The claim says every failure of `update_provider`
rolls the transaction back and leaves the cache exactly in its prior state —
never cleared.  But when the post-commit reload fails, `load_and_get_provider`'s
own `except` sets `_current_provider = None`: starting from a cache holding
row A, the call reports `IO_ERROR` with the cache cleared to `None` (not its
prior value) and the committed update not rolled back. -/
theorem update_reload_failure_clears_cache :
    (update_provider rowB.id .noFail true c6State).1 = .ioError ∧
    (update_provider rowB.id .noFail true c6State).2.cache = Option.none ∧
    c6State.cache ≠ Option.none ∧
    (update_provider rowB.id .noFail true c6State).2.db ≠ c6State.db := by
  exact ⟨rfl, rfl, by simp [c6State], by decide⟩

/-- C6 (amended).  An exception at any statement of the update/commit
sequence is rolled back and reported as `IO_ERROR` (or as `DATA_NOT_FOUND`
when the id matches no row) with the whole state — cache included —
unchanged; but a reload failure after a successful commit reports `IO_ERROR`
with the committed flag updates kept and the cache cleared to `None` rather
than left in its prior state. -/
theorem update_provider_failure_cache_behavior :
    (∀ (pid : String) (fp : UpdateFailPoint) (rl : Bool) (st : SvcState),
      fp ≠ UpdateFailPoint.noFail →
      (update_provider pid fp rl st).2 = st ∧
      ((update_provider pid fp rl st).1 = .ioError ∨
       (update_provider pid fp rl st).1 = .dataNotFound)) ∧
    (∀ (pid : String) (st : SvcState),
      (st.db.filter (fun p => p.id = pid)).length ≠ 0 →
      (update_provider pid .noFail true st).1 = .ioError ∧
      (update_provider pid .noFail true st).2.cache = Option.none ∧
      (update_provider pid .noFail true st).2.db
        = (st.db.map (fun p => { p with is_active := false })).map
            (fun p => if p.id = pid then { p with is_active := true } else p)) := by
  constructor
  · intro pid fp rl st hfp
    cases fp with
    | noFail => exact absurd rfl hfp
    | atUnsetAll => simp [update_provider]
    | atSetActive => simp [update_provider]
    | atCommit =>
      by_cases hr : ((st.db.filter (fun p => p.id = pid)).length = 0) <;>
        simp [update_provider, hr]
  · intro pid st h
    refine ⟨?_, ?_, ?_⟩ <;> simp [update_provider, load_and_get_provider, h]

/-- Witness for C6's amended theorem: a commit failure leaves the concrete
state untouched, and a reload failure on the same state clears the cache. -/
theorem update_provider_failure_cache_behavior_witness :
    ((update_provider rowB.id .atCommit false c6State).2 = c6State ∧
      ((update_provider rowB.id .atCommit false c6State).1 = .ioError ∨
       (update_provider rowB.id .atCommit false c6State).1 = .dataNotFound)) ∧
    ((update_provider rowB.id .noFail true c6State).1 = .ioError ∧
      (update_provider rowB.id .noFail true c6State).2.cache = Option.none ∧
      (update_provider rowB.id .noFail true c6State).2.db
        = (c6State.db.map (fun p => { p with is_active := false })).map
            (fun p => if p.id = rowB.id then { p with is_active := true } else p)) :=
  ⟨update_provider_failure_cache_behavior.1 rowB.id .atCommit false c6State (by decide),
   update_provider_failure_cache_behavior.2 rowB.id c6State (by decide)⟩
